import Mathlib

/-!
# Verification of the mlspace `launch` core

Shallow embedding of the mlspace repository's launcher core:

* the bit-table base64 codec (`base64.h` / `base64.cc`, reproduced at the tail
  of `src/README.md` and in `src/unnamed/part_001`);
* the command-line argument-spec decoder (`src/cli.h`, `src/cli.cc`);
* the job-spec builder (`src/mlspace/cc/job.cc`);
* the orchestrator and spawn executor (`src/mlspace/launch.cc`).

Strings and byte sequences are modelled as `List Nat` holding values `0..255`
(the numeric value of each `char`/byte).  The target platform (x86-64 Linux
per the project's CI) has a signed `char`; where the C++ converts a `char` to
a wider integer, the embedding applies the corresponding sign extension
explicitly.
-/

namespace MLSpace

/-- Bytes of a string literal, for writing concrete inputs. -/
def strBytes (s : String) : List Nat :=
  s.data.map Char.toNat

/-! ## Base64 codec (base64.h / base64.cc)

`Base64::abc` is the 64-character alphabet; the constructor builds a
256-entry table `bits`, initialised to `unknown_mask` (0xff), then
`bits[abc[i]] = i` for each alphabet index, then `bits['='] = padding_mask`
(0xfe). -/

/-- `Base64::abc`, as byte values. -/
def abcBytes : List Nat :=
  strBytes (r"ABCDEFGHIJKLMNOPQRSTUVWXYZabcdefghijklmnopqrstuvwxyz0123456789+/")

/-- `Base64::unknown_mask` (0xff). -/
def unknownMask : Nat := 255

/-- `Base64::padding_mask` (0xfe). -/
def paddingMask : Nat := 254

/-- The 256-entry lookup table built by `Base64::Base64`: fill with
`unknown_mask`, set `bits[abc[i]] = i` for `i = 0..63`, then set entry 61
(`'='`) to `padding_mask`. -/
def bitsTable : List Nat :=
  (((List.range 64).foldl (fun a i => a.set (abcBytes.getD i 0) i)
      (List.replicate 256 unknownMask))).set 61 paddingMask

/-- `bits[c]` lookup (the C++ indexes the table with the input byte). -/
def bitsOf (c : Nat) : Nat :=
  bitsTable.getD c unknownMask

/-- The loop body of `DecodeQuad`: walk the characters, fail on
`unknown_mask`, stop on `padding_mask`, otherwise shift the 6-bit value into
`buf` (a `uint32_t`), add 6 to `len`, and whenever `len & 0b11000` is
non-zero emit the byte `(buf >> (len & 0b111)) & 0xff`.  Returns the final
`len` and the emitted bytes, or `none` when an unknown character was hit. -/
def decodeQuadLoop : List Nat → Nat → Nat → List Nat → Option (Nat × List Nat)
  | [], len, _buf, acc => some (len, acc.reverse)
  | c :: cs, len, buf, acc =>
    let b := bitsOf c
    if b = unknownMask then none
    else if b = paddingMask then some (len, acc.reverse)
    else
      let buf₁ := ((buf <<< 6) ||| b) % 4294967296
      let len₁ := len + 6
      let acc₁ := if len₁ &&& 24 ≠ 0 then ((buf₁ >>> (len₁ &&& 7)) &&& 255) :: acc else acc
      decodeQuadLoop cs len₁ buf₁ acc₁

/-- `DecodeQuad` over a character range: the emitted bytes, or `none` when
the quad is invalid (unknown character, or final `len & 0b11000 == 0`,
i.e. fewer than two data characters). -/
def decodeQuad (cs : List Nat) : Option (List Nat) :=
  match decodeQuadLoop cs 0 0 [] with
  | none => none
  | some (len, out) => if len &&& 24 ≠ 0 then some out else none

/-- The main loop of `Base64::Decode`: `k` four-character groups, each put
through `DecodeQuad`. -/
def decodeMain : List Nat → Nat → Option (List Nat)
  | _, 0 => some []
  | s, k + 1 =>
    match decodeQuad (s.take 4) with
    | none => none
    | some h =>
      match decodeMain (s.drop 4) k with
      | none => none
      | some t => some (h ++ t)

/-- `Base64::Decode`: reject `len % 4 == 1`; with `length = 3 * len / 4`,
decode `length / 3` full quads starting at the input's head, then, when
`length % 3 = rem > 0`, decode the tail range starting at input offset
`length - rem` (exactly the pointer arithmetic of the source) to the end. -/
def base64Decode (s : List Nat) : Option (List Nat) :=
  if s.length % 4 = 1 then none
  else
    let length := 3 * s.length / 4
    match decodeMain s (length / 3) with
    | none => none
    | some front =>
      let rem := length % 3
      if rem > 0 then
        match decodeQuad (s.drop (length - rem)) with
        | none => none
        | some tail => some (front ++ tail)
      else some front

/-- `static_cast<uint32_t>` of a (signed, per the target ABI) `char` holding
byte `b`: bytes `128..255` sign-extend. -/
def asUInt32Char (b : Nat) : Nat :=
  if b < 128 then b else 4294967296 - 256 + b

/-- `abc[i]` lookup used by the encoder. -/
def abcAt (i : Nat) : Nat :=
  abcBytes.getD i 0

/-- The 24-bit (`uint32_t`) buffer built for a full 3-byte group:
`cast(b0) << 16 | cast(b1) << 8 | cast(b2)`, each shift wrapping mod 2^32. -/
def encTripleBuf (b0 b1 b2 : Nat) : Nat :=
  ((asUInt32Char b0 <<< 16) % 4294967296) |||
    ((asUInt32Char b1 <<< 8) % 4294967296) ||| asUInt32Char b2

/-- The buffer after `buf |= *(it++) << 8` in the 2-byte tail.  The source
has no `static_cast` there, but the `int` promotion of the signed `char`
followed by conversion to `uint32_t` yields the same value as the cast-then-
shift form, so the same formula applies. -/
def encTail2Buf (b0 b1 : Nat) : Nat :=
  ((asUInt32Char b0 <<< 16) % 4294967296) |||
    ((asUInt32Char b1 <<< 8) % 4294967296)

/-- `Base64::Encode`: full 3-byte groups produce four alphabet characters
from the 6-bit slices of the buffer; a 1-byte tail produces two characters
and `==`; a 2-byte tail produces three characters and `=`.  In the 2-byte
tail the first character is emitted from the buffer before the second byte
is OR-ed in, exactly as in the source. -/
def base64Encode : List Nat → List Nat
  | [] => []
  | [b0] =>
    let buf := (asUInt32Char b0 <<< 16) % 4294967296
    [abcAt ((buf >>> 18) &&& 63), abcAt ((buf >>> 12) &&& 63), 61, 61]
  | [b0, b1] =>
    let buf0 := (asUInt32Char b0 <<< 16) % 4294967296
    let c0 := abcAt ((buf0 >>> 18) &&& 63)
    let buf := encTail2Buf b0 b1
    [c0, abcAt ((buf >>> 12) &&& 63), abcAt ((buf >>> 6) &&& 63), 61]
  | b0 :: b1 :: b2 :: rest =>
    let buf := encTripleBuf b0 b1 b2
    abcAt ((buf >>> 18) &&& 63) :: abcAt ((buf >>> 12) &&& 63) ::
      abcAt ((buf >>> 6) &&& 63) :: abcAt (buf &&& 63) :: base64Encode rest

/-! Sanity checks mirroring `base64_test.cc`. -/

theorem base64_table_test :
    bitsOf 0 = 255 ∧ bitsOf 64 = 255 ∧ bitsOf 65 = 0 ∧ bitsOf 66 = 1 ∧
      bitsOf 67 = 2 := by decide

theorem base64_decode_pad_tests :
    base64Decode (strBytes (r"ay4=")) = some (strBytes (r"k.")) ∧
      base64Decode (strBytes (r"aw==")) = some (strBytes (r"k")) ∧
      base64Decode (strBytes (r"a===")) = none ∧
      base64Decode (strBytes (r"ay4")) = some (strBytes (r"k.")) ∧
      base64Decode (strBytes (r"aw")) = some (strBytes (r"k")) ∧
      base64Decode (strBytes (r"a")) = none := by decide

theorem base64_encode_tests :
    base64Encode (strBytes (r"rk")) = strBytes (r"cms=") ∧
      base64Encode (strBytes (r"r")) = strBytes (r"cg==") := by decide

/-! ## Argument-spec decoder (cli.h / cli.cc)

Arguments are byte lists.  `std::from_chars` over `uint64_t`/`size_t` is
modelled by `fromCharsU64`: it consumes the longest digit prefix; on a
non-empty, non-overflowing prefix it writes the value (first component) even
when trailing characters remain; the parser's success check
`ptr == sv.end() && ec == errc()` is the second component. -/

/-- Decimal digit test (`'0'..'9'`). -/
def isDigitB (c : Nat) : Bool :=
  decide (48 ≤ c ∧ c ≤ 57)

/-- Value of a digit string. -/
def digitsVal (l : List Nat) : Nat :=
  l.foldl (fun a c => a * 10 + (c - 48)) 0

/-- `std::from_chars` for `uint64_t`: (value written through the out
parameter, if any; whether the whole view was consumed without error). -/
def fromCharsU64 (s : List Nat) : Option Nat × Bool :=
  let p := s.takeWhile isDigitB
  if p.length = 0 then (none, false)
  else
    let v := digitsVal p
    if v < 18446744073709551616 then (some v, p.length == s.length)
    else (none, false)

/-- `Spec::opt_version`. -/
def optVersion : List Nat := strBytes (r"--spec-version")

/-- `Spec::opt_num_chunks`. -/
def optNumChunks : List Nat := strBytes (r"--spec-num-chunks")

/-- `Spec::opt_chunk_`. -/
def optChunk : List Nat := strBytes (r"--spec-chunk-")

/-- `Spec::opt_sha256sum`. -/
def optSha256 : List Nat := strBytes (r"--spec-sha256sum")

/-- `Uint64Parser::operator()` / `Parse`: no match unless the option is a
prefix of the argument; split form takes the next argument as the value
(consuming 2); joined form requires `'='` at position `option.size()` and
takes `curr->substr(length)` — the suffix *including* the `'='` — as the
value (consuming 1).  Returns (arguments consumed, value, parsed flag);
a partial `from_chars` write updates the value even on failure. -/
def u64Try (opt : List Nat) (value : Nat) (parsed : Bool) (curr : List Nat)
    (rest : List (List Nat)) : Nat × Nat × Bool :=
  if ¬ opt.isPrefixOf curr then (0, value, parsed)
  else if curr.length = opt.length then
    match rest with
    | [] => (0, value, parsed)
    | v :: _ =>
      let r := fromCharsU64 v
      let value₁ := r.1.getD value
      if r.2 then (2, value₁, true) else (0, value₁, parsed)
  else if curr.getD opt.length 0 = 61 then
    let r := fromCharsU64 (curr.drop opt.length)
    let value₁ := r.1.getD value
    if r.2 then (1, value₁, true) else (0, value₁, parsed)
  else (0, value, parsed)

/-- `SHA256SumParser::operator()` / `Parse`: split form takes the next
argument (consuming 2; an exhausted argument list yields `return false`,
i.e. 0); joined form takes `curr->substr(length + 1)` (consuming 1). -/
def shaTry (opt : List Nat) (sha : List Nat) (parsed : Bool) (curr : List Nat)
    (rest : List (List Nat)) : Nat × List Nat × Bool :=
  if ¬ opt.isPrefixOf curr then (0, sha, parsed)
  else if curr.length = opt.length then
    match rest with
    | [] => (0, sha, parsed)
    | v :: _ => (2, v, true)
  else if curr.getD opt.length 0 = 61 then (1, curr.drop (opt.length + 1), true)
  else (0, sha, parsed)

/-- `ChunkParser::operator()` / `Parse`: after the prefix check, look for the
first `'='` in the whole argument; without one, the value is the next
argument and the index digits run to the end of the flag; with one, the
value is the suffix after the `'='` and the index digits run up to it.  A
successful parse appends the value to `chunks` and
`(index, previous number of indices)` to `indices`.  Returns
(consumed, chunks, indices, parsed). -/
def chunkTry (opt : List Nat) (chunks : List (List Nat))
    (indices : List (Nat × Nat)) (parsed : Bool) (curr : List Nat)
    (rest : List (List Nat)) :
    Nat × List (List Nat) × List (Nat × Nat) × Bool :=
  if ¬ opt.isPrefixOf curr then (0, chunks, indices, parsed)
  else
    match curr.findIdx? (fun c => c == 61) with
    | none =>
      match rest with
      | [] => (0, chunks, indices, parsed)
      | v :: _ =>
        let r := fromCharsU64 (curr.drop opt.length)
        if r.2 then (2, chunks ++ [v], indices ++ [(r.1.getD 0, indices.length)], true)
        else (0, chunks, indices, parsed)
    | some off =>
      let sv := curr.drop (off + 1)
      let r := fromCharsU64 ((curr.drop opt.length).take (off - opt.length))
      if r.2 then (1, chunks ++ [sv], indices ++ [(r.1.getD 0, indices.length)], true)
      else (0, chunks, indices, parsed)

/-- The mutable state threaded through `Spec::FromArgs`: the `Spec` fields
written through the parsers' references plus each parser's `parsed` flag and
the chunk parser's `indices`. -/
structure ScanState where
  version : Nat
  versionParsed : Bool
  numChunks : Nat
  numChunksParsed : Bool
  chunks : List (List Nat)
  indices : List (Nat × Nat)
  chunkParsed : Bool
  sha256sum : List Nat
  shaParsed : Bool
deriving DecidableEq, Repr

/-- Initial state: `Spec` zero-initialises `version` and `num_chunks`; all
`parsed` flags start false. -/
def initScan : ScanState :=
  ⟨0, false, 0, false, [], [], false, [], false⟩

/-- One step of the scan loop: try the parsers in registration order
(`version`, `num_chunks`, chunk, `sha256sum`); the first one reporting a
positive consumption wins and later parsers are not tried on this
argument. -/
def tryStep (st : ScanState) (curr : List Nat) (rest : List (List Nat)) :
    Nat × ScanState :=
  let r1 := u64Try optVersion st.version st.versionParsed curr rest
  let st1 := { st with version := r1.2.1, versionParsed := r1.2.2 }
  if r1.1 ≠ 0 then (r1.1, st1)
  else
    let r2 := u64Try optNumChunks st1.numChunks st1.numChunksParsed curr rest
    let st2 := { st1 with numChunks := r2.2.1, numChunksParsed := r2.2.2 }
    if r2.1 ≠ 0 then (r2.1, st2)
    else
      let r3 := chunkTry optChunk st2.chunks st2.indices st2.chunkParsed curr rest
      let st3 := { st2 with chunks := r3.2.1, indices := r3.2.2.1,
                            chunkParsed := r3.2.2.2 }
      if r3.1 ≠ 0 then (r3.1, st3)
      else
        let r4 := shaTry optSha256 st3.sha256sum st3.shaParsed curr rest
        (r4.1, { st3 with sha256sum := r4.2.1, shaParsed := r4.2.2 })

/-- The scan loop of `Spec::FromArgs`: `while (++it != args.end())` — a
matched parser advances the cursor by the consumed count, an unmatched
argument is skipped.  The first argument is a loop-iteration bound: every
iteration consumes at least one argument, so a bound equal to the list
length (as `scanState` passes) makes the zero-fuel case unreachable and the
function compute exactly the loop. -/
def scanArgs : Nat → List (List Nat) → ScanState → ScanState
  | 0, _, st => st
  | _ + 1, [], st => st
  | fuel + 1, curr :: rest, st =>
    let r := tryStep st curr rest
    if r.1 = 0 then scanArgs fuel rest r.2
    else scanArgs fuel (rest.drop (r.1 - 1)) r.2

/-- The scan state after `Spec::FromArgs` has consumed the whole argument
vector (`argv[0]` is skipped by the pre-increment). -/
def scanState (args : List (List Nat)) : ScanState :=
  scanArgs (args.drop 1).length (args.drop 1) initScan

/-- Lexicographic order used by `std::sort` on `std::pair<size_t, size_t>`. -/
def insertPair (x : Nat × Nat) : List (Nat × Nat) → List (Nat × Nat)
  | [] => [x]
  | y :: ys =>
    if x.1 < y.1 ∨ (x.1 = y.1 ∧ x.2 ≤ y.2) then x :: y :: ys
    else y :: insertPair x ys

/-- Sorting the `(declared index, arrival order)` pairs: insertion sort with
the pair order.  All arrival orders are distinct, so the lexicographic order
is total and strict on the list and the sorted permutation is the same one
`std::sort` produces. -/
def sortPairs (l : List (Nat × Nat)) : List (Nat × Nat) :=
  l.foldr insertPair []

/-- The contiguity check of `ChunkParser::Finalize`: walking the sorted
pairs with a counter `ix` from 0, every pair's declared index must equal
`ix`. -/
def contiguousFrom : Nat → List (Nat × Nat) → Bool
  | _, [] => true
  | ix, p :: rest => (ix == p.1) && contiguousFrom (ix + 1) rest

/-- `std::swap(chunks[i], chunks[j])` on a list. -/
def swapAt (l : List (List Nat)) (i j : Nat) : List (List Nat) :=
  let a := l.getD i []
  let b := l.getD j []
  (l.set i b).set j a

/-- The permutation loop of `ChunkParser::Finalize`: for each sorted pair,
when the arrival order exceeds the declared index, swap
`chunks[declared]` and `chunks[arrival]`. -/
def applySwaps : List (Nat × Nat) → List (List Nat) → List (List Nat)
  | [], cs => cs
  | p :: rest, cs => applySwaps rest (if p.1 < p.2 then swapAt cs p.1 p.2 else cs)

/-- `ChunkParser::Finalize`: sort the pairs, verify contiguity (else fail),
then run the swap loop over the chunk list (the parser holds a reference to
`spec.chunks`, so the permuted list is the spec's). -/
def finalize (indices : List (Nat × Nat)) (chunks : List (List Nat)) :
    Option (List (List Nat)) :=
  let sorted := sortPairs indices
  if contiguousFrom 0 sorted then some (applySwaps sorted chunks) else none

/-- The decoded `Spec`. -/
structure Spec where
  version : Nat
  num_chunks : Nat
  chunks : List (List Nat)
  sha256sum : List Nat
deriving DecidableEq, Repr

/-- `Spec::FromArgs`: scan the arguments, require `parsed` on the
`num_chunks` and chunk parsers (parsers 1 and 2; `version` and `sha256sum`
are not in the required range), require the chunk count to equal the
declared `num_chunks`, then run `Finalize`. -/
def fromArgs (args : List (List Nat)) : Option Spec :=
  let st := scanState args
  if st.numChunksParsed = false then none
  else if st.chunkParsed = false then none
  else if st.numChunks ≠ st.chunks.length then none
  else
    match finalize st.indices st.chunks with
    | none => none
    | some cs => some ⟨st.version, st.numChunks, cs, st.sha256sum⟩

/-! ## Job-spec builder (job.cc)

The JSON parsing library is an external capability; its output is a tree of
nodes.  `Job::FromJSON` first parses the payload string (modelled by a
`parseJson` capability parameter where the orchestrator is concerned) and
then extracts the fields from the tree; the extraction logic below follows
`job.cc` line by line.  `nlohmann`'s `get<std::vector<std::string>>` /
`get<unordered_map<string, string>>` throw on an element of the wrong type;
the throw escapes `Job::FromJSON` uncaught, which the embedding conflates
with `none` — the claims settled here only concern payloads whose `args` and
`env` elements are well-typed, where the distinction never arises. -/

/-- A parsed JSON tree (strings and keys as byte lists). -/
inductive Json where
  | null
  | bool (b : Bool)
  | num (n : Int)
  | str (s : List Nat)
  | arr (elems : List Json)
  | obj (members : List (List Nat × Json))

/-- Key lookup in an object's member list (`nlohmann` objects hold unique
keys). -/
def lookupKey : List (List Nat × Json) → List Nat → Option Json
  | [], _ => none
  | (k, v) :: rest, key => if k = key then some v else lookupKey rest key

/-- `json.contains(key)`. -/
def jsonContains : Json → List Nat → Bool
  | .obj ms, key => (lookupKey ms key).isSome
  | _, _ => false

/-- `json.at(key)`; only evaluated after a positive `contains`, so the
non-object default is unreachable in the modelled paths. -/
def jsonAt : Json → List Nat → Json
  | .obj ms, key => (lookupKey ms key).getD .null
  | _, _ => .null

/-- `is_string` on a node. -/
def isStringNode : Json → Bool
  | .str _ => true
  | _ => false

/-- `JsonStringInto`: false (`none`) when the key is absent or the value is
not a string; otherwise writes the string. -/
def jsonStringInto (j : Json) (key : List Nat) : Option (List Nat) :=
  if jsonContains j key = false then none
  else
    match jsonAt j key with
    | .str s => some s
    | _ => none

/-- `JsonPathInto`: false (`none`) when the key is absent; **true without
writing** (`some none`) when the value is present but not a string; writes
the path otherwise. -/
def jsonPathInto (j : Json) (key : List Nat) : Option (Option (List Nat)) :=
  if jsonContains j key = false then none
  else
    match jsonAt j key with
    | .str s => some (some s)
    | _ => some none

/-- `get<std::vector<std::string>>` on an array's elements. -/
def getStrList : List Json → Option (List (List Nat))
  | [] => some []
  | .str s :: rest =>
    match getStrList rest with
    | none => none
    | some t => some (s :: t)
  | _ :: _ => none

/-- `JsonVectorInto`: false when the key is absent or the value is not an
array; otherwise the element extraction. -/
def jsonVectorInto (j : Json) (key : List Nat) : Option (List (List Nat)) :=
  if jsonContains j key = false then none
  else
    match jsonAt j key with
    | .arr es => getStrList es
    | _ => none

/-- `get<std::unordered_map<std::string, std::string>>` on an object's
members (member order is irrelevant to every claim settled here). -/
def getStrPairs : List (List Nat × Json) → Option (List (List Nat × List Nat))
  | [] => some []
  | (k, .str s) :: rest =>
    match getStrPairs rest with
    | none => none
    | some t => some ((k, s) :: t)
  | _ :: _ => none

/-- `JsonDictInto`: false when the key is absent or the value is not an
object; otherwise the member extraction. -/
def jsonDictInto (j : Json) (key : List Nat) :
    Option (List (List Nat × List Nat)) :=
  if jsonContains j key = false then none
  else
    match jsonAt j key with
    | .obj ms => getStrPairs ms
    | _ => none

/-- The payload keys. -/
def keyExecutable : List Nat := strBytes (r"executable")

/-- `args` key. -/
def keyArgs : List Nat := strBytes (r"args")

/-- `env` key. -/
def keyEnv : List Nat := strBytes (r"env")

/-- `work_dir` key. -/
def keyWorkDir : List Nat := strBytes (r"work_dir")

/-- The decoded job description. -/
structure Job where
  executable : List Nat
  args : List (List Nat)
  env : List (List Nat × List Nat)
  work_dir : Option (List Nat)
deriving DecidableEq, Repr

/-- The field-extraction part of `Job::FromJSON` (after the external JSON
parse): each helper's false return aborts with `nullopt`; note that
`JsonPathInto`'s false branch — key absent — aborts too. -/
def Job.fromJSON (j : Json) : Option Job :=
  match jsonStringInto j keyExecutable with
  | none => none
  | some exe =>
    match jsonVectorInto j keyArgs with
    | none => none
    | some as =>
      match jsonDictInto j keyEnv with
      | none => none
      | some ev =>
        match jsonPathInto j keyWorkDir with
        | none => none
        | some wd => some ⟨exe, as, ev, wd⟩

/-! ## Orchestrator and spawn executor (launch.cc) -/

/-- The control-flow outcome of `Run` (launch.cc).  `emptyOptionalDeref`
marks the path where `base64.Decode` returned `nullopt` and the code goes on
to evaluate `decoded_chunk->data()` and `*decoded_chunk` — a dereference of
an empty `std::optional` with no diagnostic or exit branch in the source. -/
inductive RunOutcome where
  | argParseFailure
  | emptyOptionalDeref
  | jobParseFailure
  | launch (job : Job)
deriving DecidableEq, Repr

/-- `Run`: decode the spec from `argv` (failure prints and returns 1),
base64-decode `spec.chunks[0]` — only the first chunk — and hand the result
to `Job::FromJSON` (whose internal JSON parse is the external capability
`parseJson`); a job-parse failure prints and returns 1; otherwise `Spawn`. -/
def runModel (parseJson : List Nat → Option Json) (args : List (List Nat)) :
    RunOutcome :=
  match fromArgs args with
  | none => .argParseFailure
  | some spec =>
    match base64Decode (spec.chunks.getD 0 []) with
    | none => .emptyOptionalDeref
    | some payload =>
      match parseJson payload with
      | none => .jobParseFailure
      | some j =>
        match Job.fromJSON j with
        | none => .jobParseFailure
        | some job => .launch job

/-- The bytes `Run` hands to the job-spec builder: the base64 decode of
`spec.chunks[0]` alone (launch.cc line 138). -/
def runHandedPayload (args : List (List Nat)) : Option (List Nat) :=
  match fromArgs args with
  | none => none
  | some spec => base64Decode (spec.chunks.getD 0 [])

/-- Modelled from the spec (claim C3's words, for comparison with
`runHandedPayload`): the base64 decode of the concatenation of **all**
ordered chunks with no separator. -/
def specClaimPayload (args : List (List Nat)) : Option (List Nat) :=
  match fromArgs args with
  | none => none
  | some spec => base64Decode spec.chunks.flatten

/-- The `waitpid` status word for a child that exited normally with status
`s` (low byte of `s`, shifted into bits 8..15, as `WEXITSTATUS` expects). -/
def exitStatusWord (s : Nat) : Nat :=
  (s % 256) * 256

/-- `WEXITSTATUS`: `(status >> 8) & 0xff`. -/
def wexitstatus (w : Nat) : Nat :=
  (w >>> 8) &&& 255

/-- The observable outcome of `Exec` (launch.cc) in the parent for a child
that terminates normally: whether `fork` failed, whether `waitpid` failed,
and the child's status word. -/
structure ExecOutcome where
  forkFailed : Bool
  waitFailed : Bool
  childStatusWord : Nat
deriving DecidableEq, Repr

/-- The value `Exec` returns in the parent: 1 on fork failure, 1 on wait
failure, and — after printing `WEXITSTATUS(status)` — the constant 0 on a
successful wait, whatever the child's exit status was.  `Spawn` and `main`
forward this value, so it is the launcher's exit code. -/
def execParentReturn (o : ExecOutcome) : Nat :=
  if o.forkFailed then 1
  else if o.waitFailed then 1
  else 0

/-- The child exit status `Exec` prints (`WEXITSTATUS(status)`) on the
successful-wait path. -/
def execPrintedStatus (o : ExecOutcome) : Option Nat :=
  if o.forkFailed then none
  else if o.waitFailed then none
  else some (wexitstatus o.childStatusWord)

/-! ## Supporting lemmas -/

/-- `chunkTry` appends to `chunks` and `indices` together, so it preserves
the equality of their lengths (the `assert` in `Finalize`). -/
theorem chunkTry_lengths (opt : List Nat) (chunks : List (List Nat))
    (indices : List (Nat × Nat)) (parsed : Bool) (curr : List Nat)
    (rest : List (List Nat)) (h : indices.length = chunks.length) :
    (chunkTry opt chunks indices parsed curr rest).2.2.1.length =
      (chunkTry opt chunks indices parsed curr rest).2.1.length := by
  unfold chunkTry
  dsimp only
  split
  · exact h
  · split
    · split
      · exact h
      · split <;> simp [h]
    · split <;> simp [h]

/-- `tryStep` preserves the chunk/index length balance. -/
theorem tryStep_lengths (st : ScanState) (curr : List Nat)
    (rest : List (List Nat)) (h : st.indices.length = st.chunks.length) :
    (tryStep st curr rest).2.indices.length =
      (tryStep st curr rest).2.chunks.length := by
  unfold tryStep
  dsimp only
  split
  · exact h
  · split
    · exact h
    · split
      · exact chunkTry_lengths _ _ _ _ _ _ h
      · exact chunkTry_lengths _ _ _ _ _ _ h

/-- Through the whole scan loop, `indices` and `chunks` stay the same
length. -/
theorem scanArgs_lengths (fuel : Nat) :
    ∀ (l : List (List Nat)) (st : ScanState),
      st.indices.length = st.chunks.length →
      (scanArgs fuel l st).indices.length =
        (scanArgs fuel l st).chunks.length := by
  induction fuel with
  | zero => intro l st h; exact h
  | succ n ih =>
    intro l st h
    match l with
    | [] => exact h
    | curr :: rest =>
      rw [scanArgs]
      have hst := tryStep_lengths st curr rest h
      split
      · exact ih rest _ hst
      · exact ih _ _ hst

/-- Insertion keeps one more element. -/
theorem insertPair_length (x : Nat × Nat) (l : List (Nat × Nat)) :
    (insertPair x l).length = l.length + 1 := by
  induction l with
  | nil => rfl
  | cons y ys ih =>
    unfold insertPair
    split <;> simp [ih]

/-- Sorting preserves length. -/
theorem sortPairs_length (l : List (Nat × Nat)) :
    (sortPairs l).length = l.length := by
  unfold sortPairs
  induction l with
  | nil => rfl
  | cons x xs ih => simp [List.foldr_cons, insertPair_length, ih]

/-- The `Finalize` contiguity walk succeeds exactly when the declared
indices, in order, are `k, k+1, …`. -/
theorem contiguousFrom_iff (l : List (Nat × Nat)) :
    ∀ k, contiguousFrom k l = true ↔ l.map Prod.fst = List.range' k l.length := by
  induction l with
  | nil => intro k; simp [contiguousFrom]
  | cons p rest ih =>
    intro k
    simp only [contiguousFrom, List.map_cons, List.length_cons, List.range',
      Bool.and_eq_true, beq_iff_eq, List.cons.injEq, ih (k + 1)]
    constructor
    · rintro ⟨h1, h2⟩; exact ⟨h1.symm, h2⟩
    · rintro ⟨h1, h2⟩; exact ⟨h1.symm, h2⟩

/-- `finalize` succeeds only when the sorted declared indices are exactly
`0, 1, …, n-1` where `n` is the number of collected pairs. -/
theorem finalize_isSome_imp (indices : List (Nat × Nat))
    (chunks : List (List Nat)) (cs : List (List Nat))
    (h : finalize indices chunks = some cs) :
    (sortPairs indices).map Prod.fst = List.range indices.length := by
  unfold finalize at h
  dsimp only at h
  split at h
  · rename_i hc
    rw [(contiguousFrom_iff (sortPairs indices) 0).mp hc, sortPairs_length,
      List.range_eq_range']
  · exact absurd h (by simp)

/-! ## Concrete inputs for the claims -/

/-- Arguments whose chunk flags arrive with declared indices `1, 2, 0` — a
3-cycle the `Finalize` swap loop mishandles. -/
def c1Args : List (List Nat) :=
  [strBytes (r"launch"), strBytes (r"--spec-num-chunks"), strBytes (r"3"),
    strBytes (r"--spec-chunk-1=B"), strBytes (r"--spec-chunk-2=C"),
    strBytes (r"--spec-chunk-0=A")]

/-- A two-chunk command line (both chunks are the base64 text `TQ`). -/
def c3Args : List (List Nat) :=
  [strBytes (r"launch"), strBytes (r"--spec-num-chunks"), strBytes (r"2"),
    strBytes (r"--spec-chunk-0=TQ"), strBytes (r"--spec-chunk-1=TQ")]

/-- The end-to-end flag shape of the spec, joined form throughout. -/
def c4JoinedArgs : List (List Nat) :=
  [strBytes (r"launch"), strBytes (r"--spec-version=1"),
    strBytes (r"--spec-num-chunks=1"), strBytes (r"--spec-chunk-0=TQ")]

/-- The same options in split form. -/
def c4SplitArgs : List (List Nat) :=
  [strBytes (r"launch"), strBytes (r"--spec-version"), strBytes (r"1"),
    strBytes (r"--spec-num-chunks"), strBytes (r"1"),
    strBytes (r"--spec-chunk-0"), strBytes (r"TQ")]

/-- Declared count 3 with chunk indices `{0, 1, 3}` (a gap at 2). -/
def c6Args : List (List Nat) :=
  [strBytes (r"launch"), strBytes (r"--spec-num-chunks"), strBytes (r"3"),
    strBytes (r"--spec-chunk-0=A"), strBytes (r"--spec-chunk-1=B"),
    strBytes (r"--spec-chunk-3=C")]

/-- Payload members with valid `executable`, `args` and `env` and no
`work_dir` key at all. -/
def c7Members : List (List Nat × Json) :=
  [(keyExecutable, Json.str (strBytes (r"/bin/echo"))),
    (keyArgs, Json.arr [Json.str (strBytes (r"hi"))]),
    (keyEnv, Json.obj [])]

/-- A one-chunk command line whose chunk is not valid base64 (`!!!!`). -/
def c9Args : List (List Nat) :=
  [strBytes (r"launch"), strBytes (r"--spec-num-chunks"), strBytes (r"1"),
    strBytes (r"--spec-chunk-0=!!!!")]

/-- The same members as `c7Members` plus `work_dir: null` — present but not
a string. -/
def c10Members : List (List Nat × Json) :=
  c7Members ++ [(keyWorkDir, Json.null)]

/-! ## The claims -/

/-- C1: the claim says chunk reassembly is order-independent — for every
arrival order, `Spec::FromArgs` permutes the chunk values into ascending
declared-index order.  False: the swap loop in `ChunkParser::Finalize` does
not realise every permutation.  With arrival order of declared indices
`1, 2, 0` (values `B, C, A`), `FromArgs` succeeds but yields chunks
`[A, C, B]` instead of `[A, B, C]`. -/
theorem c1_finalize_swap_misorders_three_cycle :
    fromArgs c1Args =
      some ⟨0, 3, [strBytes (r"A"), strBytes (r"C"), strBytes (r"B")], []⟩ ∧
      (fromArgs c1Args).map Spec.chunks ≠
        some [strBytes (r"A"), strBytes (r"B"), strBytes (r"C")] := by
  decide

/-- C2: the claim says `Decode(Encode(b)) = b` for all byte values 0..255.
False: `Encode` sign-extends bytes ≥ 0x80 (signed `char`), polluting the
24-bit buffer.  `Encode([0x00, 0x80])` yields `A4A=` (correct is `AIA=`),
which decodes to `[0x03, 0x80]`. -/
theorem c2_roundtrip_fails_high_byte :
    base64Encode [0, 128] = [65, 52, 65, 61] ∧
      base64Decode (base64Encode [0, 128]) = some [3, 128] ∧
      base64Decode (base64Encode [0, 128]) ≠ some [0, 128] := by
  decide

/-- C3: the claim says `Run` base64-decodes the concatenation of all ordered
chunks.  False: launch.cc decodes `spec.chunks[0]` only.  With two chunks
`TQ`, `TQ`, the bytes handed to the job-spec builder are `Decode("TQ") =
[77]`, not `Decode("TQTQ") = [77, 4, 208]`. -/
theorem c3_run_decodes_first_chunk_only :
    fromArgs c3Args =
      some ⟨0, 2, [strBytes (r"TQ"), strBytes (r"TQ")], []⟩ ∧
      runHandedPayload c3Args = some [77] ∧
      specClaimPayload c3Args = some [77, 4, 208] ∧
      runHandedPayload c3Args ≠ specClaimPayload c3Args := by
  decide

/-- C4: the claim says the joined form `--opt=N` parses like the split form
for the integer options.  False: `Uint64Parser::Parse` takes
`curr->substr(length)`, which retains the `'='`, so `from_chars` fails and
the flag stays unmatched; the all-joined command line of the spec's
end-to-end scenario is rejected while the split form succeeds. -/
theorem c4_joined_uint64_rejected_split_accepted :
    fromArgs c4JoinedArgs = none ∧
      fromArgs c4SplitArgs = some ⟨1, 1, [strBytes (r"TQ")], []⟩ := by
  decide

/-- C5: the claim says an unpadded input of length ≡ 2 (mod 4), e.g. length
6, decodes to the bytes implied by the characters present (what the padded
form decodes to).  False: the tail call starts at offset `length - rem`
counted in output bytes, re-reading input character 3; `AAAAAA` decodes to
five zero bytes while its padded form `AAAAAA==` decodes to four. -/
theorem c5_unpadded_tail_decode_diverges :
    base64Decode (strBytes (r"AAAAAA")) = some [0, 0, 0, 0, 0] ∧
      base64Decode (strBytes (r"AAAAAA==")) = some [0, 0, 0, 0] ∧
      base64Decode (strBytes (r"AAAAAA")) ≠
        base64Decode (strBytes (r"AAAAAA==")) := by
  decide

/-- C6: whenever the declared chunk indices collected from the command line,
sorted, are not exactly `0, 1, …, num_chunks-1` (gap, duplicate,
out-of-range index, or count mismatch), `Spec::FromArgs` returns failure and
no `Spec` value. -/
theorem c6_fromArgs_fails_noncontiguous_indices (args : List (List Nat))
    (h : ¬ (sortPairs (scanState args).indices).map Prod.fst =
        List.range (scanState args).numChunks) :
    fromArgs args = none := by
  unfold fromArgs
  dsimp only
  split
  · rfl
  · split
    · rfl
    · split
      · rfl
      · rename_i h1 h2 h3
        split
        · rfl
        · rename_i cs hfin
          exfalso
          apply h
          have hlen : (scanState args).indices.length =
              (scanState args).chunks.length :=
            scanArgs_lengths (args.drop 1).length (args.drop 1) initScan rfl
          have hng : (scanState args).numChunks =
              (scanState args).chunks.length := not_ne_iff.mp h3
          rw [finalize_isSome_imp _ _ _ hfin, hlen, hng]

/-- Witness for C6: the spec's gap example — declared count 3 with indices
`{0, 1, 3}` — satisfies the hypothesis, and decoding fails. -/
theorem c6_fromArgs_fails_noncontiguous_indices_witness :
    (¬ (sortPairs (scanState c6Args).indices).map Prod.fst =
        List.range (scanState c6Args).numChunks) ∧
      fromArgs c6Args = none :=
  ⟨by decide, c6_fromArgs_fails_noncontiguous_indices c6Args (by decide)⟩

/-- C7: the claim says a payload with valid `executable`, `args` and `env`
but no `work_dir` key at all still builds a job (absence is not a failure).
False: `JsonPathInto` returns `false` when the key is absent, which
`Job::FromJSON` turns into `nullopt` — while the same payload with
`work_dir: null` (present, non-string) succeeds. -/
theorem c7_fromJSON_fails_absent_work_dir :
    Job.fromJSON (Json.obj c7Members) = none ∧
      Job.fromJSON (Json.obj c10Members) =
        some ⟨strBytes (r"/bin/echo"), [strBytes (r"hi")], [], none⟩ := by
  decide

/-- C8: the claim says the launcher propagates the child's exit status as
its own exit code (a child exiting 5 makes the launcher exit 5).  False:
after a successful `waitpid`, `Exec` prints `WEXITSTATUS(status)` and
returns the constant 0; a child exiting 5 yields launcher exit code 0. -/
theorem c8_exec_returns_zero_ignoring_child_status :
    execParentReturn ⟨false, false, exitStatusWord 5⟩ = 0 ∧
      execPrintedStatus ⟨false, false, exitStatusWord 5⟩ = some 5 ∧
      execParentReturn ⟨false, false, exitStatusWord 5⟩ ≠ 5 := by
  decide

/-- C9: the claim says a base64-decode failure is surfaced with a diagnostic
and a non-zero exit, never dereferencing the absent result.  False: `Run`
has no branch on `Decode`'s result; with the valid flag set whose chunk is
`!!!!` (not base64), the code reaches `decoded_chunk->data()` with an empty
optional — the `emptyOptionalDeref` outcome, not a diagnostic path. -/
theorem c9_run_deref_absent_decode_result :
    fromArgs c9Args = some ⟨0, 1, [strBytes (r"!!!!")], []⟩ ∧
      base64Decode (strBytes (r"!!!!")) = none ∧
      runModel (fun _ => none) c9Args = RunOutcome.emptyOptionalDeref := by
  decide

/-- C10: a payload whose `work_dir` key is present with a non-string value
(while `executable`, `args`, `env` extract successfully) builds a job with
no working-directory override: `JsonPathInto` reports success without
writing the path. -/
theorem c10_fromJSON_nonstring_work_dir_absent
    (kvs : List (List Nat × Json)) (e : List Nat) (as : List (List Nat))
    (ev : List (List Nat × List Nat)) (v : Json)
    (hexe : jsonStringInto (Json.obj kvs) keyExecutable = some e)
    (hargs : jsonVectorInto (Json.obj kvs) keyArgs = some as)
    (henv : jsonDictInto (Json.obj kvs) keyEnv = some ev)
    (hwd : lookupKey kvs keyWorkDir = some v)
    (hns : isStringNode v = false) :
    Job.fromJSON (Json.obj kvs) = some ⟨e, as, ev, none⟩ := by
  unfold Job.fromJSON
  rw [hexe, hargs, henv]
  have hcontains : jsonContains (Json.obj kvs) keyWorkDir = true := by
    simp [jsonContains, hwd]
  have hat : jsonAt (Json.obj kvs) keyWorkDir = v := by
    simp [jsonAt, hwd]
  have hpath : jsonPathInto (Json.obj kvs) keyWorkDir = some none := by
    unfold jsonPathInto
    rw [hcontains, hat]
    cases v <;> simp_all [isStringNode]
  rw [hpath]

/-- Witness for C10: the concrete payload with `work_dir: null`. -/
theorem c10_fromJSON_nonstring_work_dir_absent_witness :
    Job.fromJSON (Json.obj c10Members) =
      some ⟨strBytes (r"/bin/echo"), [strBytes (r"hi")], [], none⟩ :=
  c10_fromJSON_nonstring_work_dir_absent c10Members _ _ _ Json.null
    (by rfl) (by rfl) (by rfl) (by rfl) (by rfl)

end MLSpace
